import Mathlib

/-!
Shallow embedding of the curator framework façade (Go, package `curator`):
the lifecycle state machine (`State`, `Start`, `Close`), the builder
factory methods, sync, namespace views, and connection blocking.

Pure Go functions become Lean functions; the atomic compare-and-swap on
the `State` int32 becomes a pure CAS over an enumerated state; results of
the external collaborators (connection state manager, zookeeper client)
that the façade merely forwards are passed in as an `Env` record; a Go
panic is modelled as the `.error` branch of `Except String`.
-/

set_option autoImplicit false

namespace Curator

/-- Framework lifecycle state, from the Go `State int32` enumeration:
LATENT (Start not yet called), STARTED, STOPPED. -/
inductive State where
  | LATENT
  | STARTED
  | STOPPED
deriving DecidableEq, Repr

/-- Pure model of `State.Change`, the atomic `CompareAndSwapInt32`: if the
current value equals `oldState` it is replaced by `newState` and `true` is
returned, otherwise the value is unchanged and `false` is returned.  The
pair is (swapped?, value afterwards). -/
def State.Change (s oldState newState : State) : Bool × State :=
  if s = oldState then (true, newState) else (false, s)

/-- Model of `State.Check(state, msg)`: the Go method panics with `msg`
when the states differ.  `some msg` is the panic, `none` is normal
return. -/
def State.Check (s state : State) (msg : String) : Option String :=
  if s ≠ state then some msg else none

/-- Curator event kinds (spec §3: the `CuratorEvent` tagged union). Only
`WATCHED` and `CLOSING` are used by the façade code under scrutiny. -/
inductive CuratorEventType where
  | CREATED
  | DELETED
  | EXISTS
  | GET_DATA
  | SET_DATA
  | CHILDREN
  | GET_ACL
  | SET_ACL
  | WATCHED
  | CLOSING
  | SYNC
deriving DecidableEq, Repr

/-- The mutable pieces of `curatorFramework` the claims are about: the
lifecycle state, the two listener containers (listeners identified by
number, registration order preserved) and the configured namespace. -/
structure Framework where
  state : State
  listeners : List Nat
  unhandledErrorListeners : List Nat
  nameSpace : String
deriving DecidableEq, Repr

/-- Results returned by the external collaborators that `Start`/`Close`
invoke and merely forward: the connection state manager's and the
zookeeper client's start/close outcomes (`none` = success). -/
structure Env where
  stateManagerStartErr : Option String
  clientStartErr : Option String
  stateManagerCloseErr : Option String
  clientCloseErr : Option String
deriving DecidableEq, Repr

/-- Model of `curatorFramework.Start`: CAS LATENT→STARTED; on CAS failure
return the error "Cannot be started more than once"; otherwise start the
state manager then the client, wrapping their errors.  Returns (error?,
framework afterwards).  The state is never rolled back on a late
failure. -/
def Start (env : Env) (c : Framework) : Option String × Framework :=
  let r := c.state.Change .LATENT .STARTED
  let c' : Framework := { c with state := r.2 }
  if r.1 = false then
    (some "Cannot be started more than once", c')
  else
    match env.stateManagerStartErr with
    | some e => (some ("fail to start state manager, " ++ e), c')
    | none =>
      match env.clientStartErr with
      | some e => (some ("fail to start client, " ++ e), c')
      | none => (none, c')

/-- Observable effects of one `Close` call: the returned error (if any),
the (listener, event kind) deliveries made by the CLOSING broadcast, and
the messages logged (not returned) for state-manager teardown errors. -/
structure CloseObs where
  ret : Option String
  delivered : List (Nat × CuratorEventType)
  logged : List String
deriving DecidableEq, Repr

/-- Model of `curatorFramework.Close`: CAS STARTED→STOPPED; on CAS failure
return nil at once (no-op).  Otherwise broadcast a CLOSING event to every
curator listener (`ForEach` dispatches in registration order, spec §4.5),
clear both listener containers, close the state manager — logging its
error rather than returning it — and return the client's close result. -/
def Close (env : Env) (c : Framework) : CloseObs × Framework :=
  let r := c.state.Change .STARTED .STOPPED
  if r.1 = false then
    ({ ret := none, delivered := [], logged := [] }, { c with state := r.2 })
  else
    ({ ret := env.clientCloseErr
     , delivered := c.listeners.map (fun l => (l, CuratorEventType.CLOSING))
     , logged :=
         match env.stateManagerCloseErr with
         | some e => ["fail to close state manager, " ++ e]
         | none => [] },
     { c with state := r.2, listeners := [], unhandledErrorListeners := [] })

/-- One call in a lifecycle call sequence: `Start()` or `Close()`. -/
inductive Call where
  | start
  | close
deriving DecidableEq, Repr

/-- The framework after one lifecycle call. -/
def step (env : Env) (c : Framework) : Call → Framework
  | .start => (Start env c).2
  | .close => (Close env c).2

/-- Number of steps along a call sequence at which the state moves from
`a` (just before the call) to `b` (just after it). -/
def countTransRun (env : Env) (a b : State) (c : Framework) : List Call → Nat
  | [] => 0
  | x :: xs =>
    (if c.state = a ∧ (step env c x).state = b then 1 else 0) +
      countTransRun env a b (step env c x) xs

lemma Start_state (env : Env) (c : Framework) :
    (Start env c).2.state = if c.state = .LATENT then .STARTED else c.state := by
  unfold Start State.Change
  rcases h : env.stateManagerStartErr with _ | e <;>
    rcases h2 : env.clientStartErr with _ | e2 <;>
    by_cases hs : c.state = State.LATENT <;> simp [hs]

lemma Close_state (env : Env) (c : Framework) :
    (Close env c).2.state = if c.state = .STARTED then .STOPPED else c.state := by
  unfold Close State.Change
  by_cases hs : c.state = State.STARTED <;> simp [hs]

lemma step_state (env : Env) (c : Framework) (x : Call) :
    (step env c x).state =
      match x with
      | .start => if c.state = .LATENT then .STARTED else c.state
      | .close => if c.state = .STARTED then .STOPPED else c.state := by
  cases x
  · exact Start_state env c
  · exact Close_state env c

lemma step_not_latent (env : Env) (c : Framework) (x : Call)
    (h : c.state ≠ .LATENT) : (step env c x).state ≠ .LATENT := by
  rw [step_state]
  cases x <;> by_cases hs : c.state = State.STARTED <;>
    by_cases hl : c.state = State.LATENT <;> simp_all

lemma step_stopped (env : Env) (c : Framework) (x : Call)
    (h : c.state = .STOPPED) : (step env c x).state = .STOPPED := by
  rw [step_state]
  cases x <;> simp [h]

lemma countLS_zero (env : Env) (calls : List Call) :
    ∀ c : Framework, c.state ≠ .LATENT →
      countTransRun env .LATENT .STARTED c calls = 0 := by
  induction calls with
  | nil => intro c _; rfl
  | cons x xs ih =>
    intro c h
    simp only [countTransRun, h, false_and, if_false, Nat.zero_add]
    exact ih _ (step_not_latent env c x h)

lemma countSS_zero (env : Env) (calls : List Call) :
    ∀ c : Framework, c.state = .STOPPED →
      countTransRun env .STARTED .STOPPED c calls = 0 := by
  induction calls with
  | nil => intro c _; rfl
  | cons x xs ih =>
    intro c h
    have hne : c.state ≠ State.STARTED := by rw [h]; simp
    simp only [countTransRun, hne, false_and, if_false, Nat.zero_add]
    exact ih _ (step_stopped env c x h)

lemma countLS_le_one (env : Env) (calls : List Call) :
    ∀ c : Framework, countTransRun env .LATENT .STARTED c calls ≤ 1 := by
  induction calls with
  | nil => intro c; exact Nat.zero_le 1
  | cons x xs ih =>
    intro c
    by_cases h : c.state = State.LATENT ∧ (step env c x).state = State.STARTED
    · have h0 : countTransRun env .LATENT .STARTED (step env c x) xs = 0 :=
        countLS_zero env xs _ (by rw [h.2]; simp)
      simp [countTransRun, h, h0]
    · simp only [countTransRun, h, if_false, Nat.zero_add]
      exact ih _

lemma countSS_le_one (env : Env) (calls : List Call) :
    ∀ c : Framework, countTransRun env .STARTED .STOPPED c calls ≤ 1 := by
  induction calls with
  | nil => intro c; exact Nat.zero_le 1
  | cons x xs ih =>
    intro c
    by_cases h : c.state = State.STARTED ∧ (step env c x).state = State.STOPPED
    · have h0 : countTransRun env .STARTED .STOPPED (step env c x) xs = 0 :=
        countSS_zero env xs _ h.2
      simp [countTransRun, h, h0]
    · simp only [countTransRun, h, if_false, Nat.zero_add]
      exact ih _

lemma Start_not_latent (env : Env) (c : Framework) (h : c.state ≠ .LATENT) :
    Start env c = (some "Cannot be started more than once", c) := by
  unfold Start State.Change
  simp [h]

lemma Close_not_started (env : Env) (c : Framework) (h : c.state ≠ .STARTED) :
    Close env c = ({ ret := none, delivered := [], logged := [] }, c) := by
  unfold Close State.Change
  simp [h]

/-- C1: for every sequence of Start()/Close() calls on one façade starting
Latent, the state moves at most once Latent→Started and at most once
Started→Stopped (each move through the CAS `State.Change`); a Start not
performed from Latent returns the error "Cannot be started more than
once" and changes nothing, and a Close not performed from Started is a
no-op returning success (nil). -/
theorem startClose_lifecycle (env : Env) (c0 : Framework) (calls : List Call)
    (h0 : c0.state = .LATENT) :
    countTransRun env .LATENT .STARTED c0 calls ≤ 1 ∧
    countTransRun env .STARTED .STOPPED c0 calls ≤ 1 ∧
    (∀ c : Framework, c.state ≠ .LATENT →
      Start env c = (some "Cannot be started more than once", c)) ∧
    (∀ c : Framework, c.state ≠ .STARTED →
      Close env c = ({ ret := none, delivered := [], logged := [] }, c)) := by
  refine ⟨countLS_le_one env calls c0, countSS_le_one env calls c0, ?_, ?_⟩
  · intro c h; exact Start_not_latent env c h
  · intro c h; exact Close_not_started env c h

theorem startClose_lifecycle_witness :
    countTransRun ⟨none, none, none, none⟩ .LATENT .STARTED
        ⟨.LATENT, [], [], ""⟩ [.start, .close, .start, .close] ≤ 1 ∧
    countTransRun ⟨none, none, none, none⟩ .STARTED .STOPPED
        ⟨.LATENT, [], [], ""⟩ [.start, .close, .start, .close] ≤ 1 ∧
    (∀ c : Framework, c.state ≠ .LATENT →
      Start ⟨none, none, none, none⟩ c =
        (some "Cannot be started more than once", c)) ∧
    (∀ c : Framework, c.state ≠ .STARTED →
      Close ⟨none, none, none, none⟩ c =
        ({ ret := none, delivered := [], logged := [] }, c)) :=
  startClose_lifecycle ⟨none, none, none, none⟩ ⟨.LATENT, [], [], ""⟩
    [.start, .close, .start, .close] rfl

/-- C10: when the Latent→Started CAS succeeds but the state manager or the
client fails to start, Start() returns that wrapped error while the state
stays Started (no rollback to Latent), so a retry of Start() returns
"Cannot be started more than once". -/
theorem start_failure_no_rollback (env : Env) (c : Framework)
    (h0 : c.state = .LATENT)
    (herr : env.stateManagerStartErr.isSome ∨ env.clientStartErr.isSome) :
    (Start env c).1.isSome ∧
    (Start env c).2.state = .STARTED ∧
    (Start env (Start env c).2).1 = some "Cannot be started more than once" := by
  have hst : (Start env c).2.state = State.STARTED := by
    rw [Start_state, if_pos h0]
  refine ⟨?_, hst, ?_⟩
  · unfold Start State.Change
    rcases h : env.stateManagerStartErr with _ | e
    · rcases h2 : env.clientStartErr with _ | e2
      · rcases herr with hl | hr
        · rw [h] at hl; simp at hl
        · rw [h2] at hr; simp at hr
      · simp [h0, h, h2]
    · simp [h0, h]
  · have : (Start env (Start env c).2) =
        (some "Cannot be started more than once", (Start env c).2) :=
      Start_not_latent env _ (by rw [hst]; simp)
    rw [this]

theorem start_failure_no_rollback_witness :
    (Start ⟨some "boom", none, none, none⟩ ⟨.LATENT, [], [], ""⟩).1.isSome ∧
    (Start ⟨some "boom", none, none, none⟩ ⟨.LATENT, [], [], ""⟩).2.state = .STARTED ∧
    (Start ⟨some "boom", none, none, none⟩
        (Start ⟨some "boom", none, none, none⟩ ⟨.LATENT, [], [], ""⟩).2).1 =
      some "Cannot be started more than once" :=
  start_failure_no_rollback ⟨some "boom", none, none, none⟩ ⟨.LATENT, [], [], ""⟩
    rfl (Or.inl (by decide))

/-- C5 counterexample: on a still Latent framework (one registered
listener, namespace "") Close() does not fail: it returns nil (success),
delivers nothing, and leaves the framework unchanged — even though the
Latent→Stopped CAS attempt fails. -/
theorem close_on_latent_returns_success :
    (Close ⟨none, none, none, none⟩ ⟨.LATENT, [0], [], ""⟩).1.ret = none ∧
    (Close ⟨none, none, none, none⟩ ⟨.LATENT, [0], [], ""⟩).1.delivered = [] ∧
    (Close ⟨none, none, none, none⟩ ⟨.LATENT, [0], [], ""⟩).2 =
      ⟨.LATENT, [0], [], ""⟩ ∧
    ((⟨.LATENT, [0], [], ""⟩ : Framework).state.Change .STARTED .STOPPED).1 = false := by
  decide

/-- C5 amended: Close() on a Latent framework is a no-op returning success:
the Started→Stopped CAS fails (the attempted edge Latent→Stopped is not a
permitted transition), so no teardown runs, nothing is delivered or
logged, and the state remains Latent. -/
theorem close_on_latent_noop (env : Env) (c : Framework)
    (h : c.state = .LATENT) :
    ((c.state.Change .STARTED .STOPPED).1 = false) ∧
    Close env c = ({ ret := none, delivered := [], logged := [] }, c) := by
  constructor
  · unfold State.Change
    rw [h]
    simp
  · exact Close_not_started env c (by rw [h]; simp)

theorem close_on_latent_noop_witness :
    (((⟨.LATENT, [3], [7], "ns"⟩ : Framework).state.Change .STARTED .STOPPED).1
        = false) ∧
    Close ⟨none, none, none, some "x"⟩ ⟨.LATENT, [3], [7], "ns"⟩ =
      ({ ret := none, delivered := [], logged := [] }, ⟨.LATENT, [3], [7], "ns"⟩) :=
  close_on_latent_noop ⟨none, none, none, some "x"⟩ ⟨.LATENT, [3], [7], "ns"⟩ rfl

/-- C3: Close() on a Started framework broadcasts a CLOSING CuratorEvent
to every registered curator listener in registration order, then clears
both listener containers, logs (rather than returns) any state-manager
teardown error, and returns the connection client's close result. -/
theorem close_started_behavior (env : Env) (c : Framework)
    (h : c.state = .STARTED) :
    (Close env c).1.delivered =
      c.listeners.map (fun l => (l, CuratorEventType.CLOSING)) ∧
    (Close env c).2.listeners = [] ∧
    (Close env c).2.unhandledErrorListeners = [] ∧
    (Close env c).1.logged =
      (match env.stateManagerCloseErr with
       | some e => ["fail to close state manager, " ++ e]
       | none => []) ∧
    (Close env c).1.ret = env.clientCloseErr ∧
    (Close env c).2.state = .STOPPED := by
  unfold Close State.Change
  simp [h]

theorem close_started_behavior_witness :
    (Close ⟨none, none, some "smerr", some "cerr"⟩
        ⟨.STARTED, [1, 2], [9], "ns"⟩).1.delivered =
      [(1, CuratorEventType.CLOSING), (2, CuratorEventType.CLOSING)] ∧
    (Close ⟨none, none, some "smerr", some "cerr"⟩
        ⟨.STARTED, [1, 2], [9], "ns"⟩).2.listeners = [] ∧
    (Close ⟨none, none, some "smerr", some "cerr"⟩
        ⟨.STARTED, [1, 2], [9], "ns"⟩).2.unhandledErrorListeners = [] ∧
    (Close ⟨none, none, some "smerr", some "cerr"⟩
        ⟨.STARTED, [1, 2], [9], "ns"⟩).1.logged =
      ["fail to close state manager, smerr"] ∧
    (Close ⟨none, none, some "smerr", some "cerr"⟩
        ⟨.STARTED, [1, 2], [9], "ns"⟩).1.ret = some "cerr" ∧
    (Close ⟨none, none, some "smerr", some "cerr"⟩
        ⟨.STARTED, [1, 2], [9], "ns"⟩).2.state = .STOPPED := by
  have h := close_started_behavior ⟨none, none, some "smerr", some "cerr"⟩
    ⟨.STARTED, [1, 2], [9], "ns"⟩ rfl
  simpa using h

/-- The panic message used by every builder factory's `Check`. -/
def mustBeStartedMsg : String := "instance must be started before calling this method"

/-- Builders returned by the façade's factories, with the fields the
factories initialise (the Go structs carry a client pointer, elided
here, and for delete/set-data/set-acl a `version` field). -/
inductive Builder where
  | createB
  | deleteB (version : Int)
  | checkExistsB
  | getDataB
  | setDataB (version : Int)
  | getChildrenB
  | getACLB
  | setACLB (version : Int)
  | transactionB
deriving DecidableEq, Repr

/-- Model of `curatorFramework.Create`: `Check(STARTED, …)` panics unless
the state is STARTED, then a fresh create builder is returned.  A panic is
the `.error` branch. -/
def Create (s : State) : Except String Builder :=
  match s.Check .STARTED mustBeStartedMsg with
  | some msg => .error msg
  | none => .ok .createB

/-- Model of `curatorFramework.Delete`: check STARTED, then return a
delete builder with `version: -1`. -/
def Delete (s : State) : Except String Builder :=
  match s.Check .STARTED mustBeStartedMsg with
  | some msg => .error msg
  | none => .ok (.deleteB (-1))

/-- Model of `curatorFramework.CheckExists`. -/
def CheckExists (s : State) : Except String Builder :=
  match s.Check .STARTED mustBeStartedMsg with
  | some msg => .error msg
  | none => .ok .checkExistsB

/-- Model of `curatorFramework.GetData`. -/
def GetData (s : State) : Except String Builder :=
  match s.Check .STARTED mustBeStartedMsg with
  | some msg => .error msg
  | none => .ok .getDataB

/-- Model of `curatorFramework.SetData`: check STARTED, then return a
set-data builder with `version: -1`. -/
def SetData (s : State) : Except String Builder :=
  match s.Check .STARTED mustBeStartedMsg with
  | some msg => .error msg
  | none => .ok (.setDataB (-1))

/-- Model of `curatorFramework.GetChildren`. -/
def GetChildren (s : State) : Except String Builder :=
  match s.Check .STARTED mustBeStartedMsg with
  | some msg => .error msg
  | none => .ok .getChildrenB

/-- Model of `curatorFramework.GetACL`. -/
def GetACL (s : State) : Except String Builder :=
  match s.Check .STARTED mustBeStartedMsg with
  | some msg => .error msg
  | none => .ok .getACLB

/-- Model of `curatorFramework.SetACL`: check STARTED, then return a
set-acl builder with `version: -1`. -/
def SetACL (s : State) : Except String Builder :=
  match s.Check .STARTED mustBeStartedMsg with
  | some msg => .error msg
  | none => .ok (.setACLB (-1))

/-- Model of `curatorFramework.InTransaction`. -/
def InTransaction (s : State) : Except String Builder :=
  match s.Check .STARTED mustBeStartedMsg with
  | some msg => .error msg
  | none => .ok .transactionB

/-- State accumulated by the fluent sync builder before `ForPath`. -/
structure SyncBuilderS where
  background : Bool
  context : Option Nat
deriving DecidableEq, Repr

/-- Model of `curatorFramework.Sync`: check STARTED, then return a fresh
sync builder (no background mode requested yet, no context). -/
def Sync (s : State) : Except String SyncBuilderS :=
  match s.Check .STARTED mustBeStartedMsg with
  | some msg => .error msg
  | none => .ok { background := false, context := none }

/-- Modelled from the spec: `syncBuilder.InBackgroundWithContext` is not
under src/ (only its call site is); a background call records the
background request and the caller-supplied opaque context on the
builder. -/
def SyncBuilderS.InBackgroundWithContext (b : SyncBuilderS) (ctx : Nat) :
    SyncBuilderS :=
  { b with background := true, context := some ctx }

/-- The sync operation as executed: the path it runs against, whether it
runs in the background, and the context delivered with its event. -/
structure SyncOp where
  path : String
  background : Bool
  context : Option Nat
deriving DecidableEq, Repr

/-- Modelled from the spec: `syncBuilder.ForPath` is not under src/; spec
§4.3 — a sync is ALWAYS executed in the background regardless of whether
a background mode was requested by the caller, and still honors the
caller's supplied context for correlation. -/
def SyncBuilderS.ForPath (b : SyncBuilderS) (path : String) : SyncOp :=
  { path := path, background := true, context := b.context }

/-- Model of `curatorFramework.DoSync`: exactly
`Sync().InBackgroundWithContext(context).ForPath(path)` (a panic from
`Sync`'s state check propagates). -/
def DoSync (s : State) (path : String) (context : Nat) :
    Except String SyncOp :=
  match Sync s with
  | .error msg => .error msg
  | .ok b => .ok ((b.InBackgroundWithContext context).ForPath path)

/-- C2: every builder factory of the façade (Create, Delete, CheckExists,
GetData, SetData, GetChildren, GetACL, SetACL, InTransaction, Sync)
panics with the same programmer-error message when the state is not
STARTED, and returns a builder when it is. -/
theorem builderFactories_require_started (s : State) :
    (s ≠ .STARTED →
      Create s = .error mustBeStartedMsg ∧
      Delete s = .error mustBeStartedMsg ∧
      CheckExists s = .error mustBeStartedMsg ∧
      GetData s = .error mustBeStartedMsg ∧
      SetData s = .error mustBeStartedMsg ∧
      GetChildren s = .error mustBeStartedMsg ∧
      GetACL s = .error mustBeStartedMsg ∧
      SetACL s = .error mustBeStartedMsg ∧
      InTransaction s = .error mustBeStartedMsg ∧
      Sync s = .error mustBeStartedMsg) ∧
    (s = .STARTED →
      Create s = .ok .createB ∧
      Delete s = .ok (.deleteB (-1)) ∧
      CheckExists s = .ok .checkExistsB ∧
      GetData s = .ok .getDataB ∧
      SetData s = .ok (.setDataB (-1)) ∧
      GetChildren s = .ok .getChildrenB ∧
      GetACL s = .ok .getACLB ∧
      SetACL s = .ok (.setACLB (-1)) ∧
      InTransaction s = .ok .transactionB ∧
      Sync s = .ok { background := false, context := none }) := by
  constructor <;> intro h <;> cases s <;>
    simp_all [Create, Delete, CheckExists, GetData, SetData, GetChildren,
      GetACL, SetACL, InTransaction, Sync, State.Check]

theorem builderFactories_require_started_witness :
    Create .LATENT = .error mustBeStartedMsg ∧
    Sync .STOPPED = .error mustBeStartedMsg ∧
    Create .STARTED = .ok .createB ∧
    InTransaction .STARTED = .ok .transactionB :=
  ⟨((builderFactories_require_started .LATENT).1 (by decide)).1,
   ((builderFactories_require_started .STOPPED).1
      (by decide)).2.2.2.2.2.2.2.2.2,
   ((builderFactories_require_started .STARTED).2 rfl).1,
   ((builderFactories_require_started .STARTED).2 rfl).2.2.2.2.2.2.2.2.1⟩

/-- C9: the Delete, SetData and SetACL factories initialise their
builder's version field to -1, the "any version" sentinel. -/
theorem version_initialized_to_minus_one (s : State) (h : s = .STARTED) :
    Delete s = .ok (Builder.deleteB (-1)) ∧
    SetData s = .ok (Builder.setDataB (-1)) ∧
    SetACL s = .ok (Builder.setACLB (-1)) := by
  subst h
  exact ⟨rfl, rfl, rfl⟩

theorem version_initialized_to_minus_one_witness :
    Delete .STARTED = .ok (Builder.deleteB (-1)) ∧
    SetData .STARTED = .ok (Builder.setDataB (-1)) ∧
    SetACL .STARTED = .ok (Builder.setACLB (-1)) :=
  version_initialized_to_minus_one .STARTED rfl

/-- C6: on a Started façade, DoSync(path, ctx) is exactly
Sync().InBackgroundWithContext(ctx).ForPath(path); the executed sync runs
in the background carrying the caller's context, and `ForPath` puts every
sync in the background no matter what mode the builder had accumulated. -/
theorem doSync_background_equiv (s : State) (path : String) (ctx : Nat)
    (h : s = .STARTED) :
    DoSync s path ctx =
      ((Sync s).map fun b => (b.InBackgroundWithContext ctx).ForPath path) ∧
    DoSync s path ctx =
      .ok { path := path, background := true, context := some ctx } ∧
    (∀ b : SyncBuilderS, (b.ForPath path).background = true) := by
  subst h
  refine ⟨rfl, rfl, fun b => rfl⟩

theorem doSync_background_equiv_witness :
    DoSync .STARTED "/a/b" 42 =
      ((Sync .STARTED).map fun b =>
        (b.InBackgroundWithContext 42).ForPath "/a/b") ∧
    DoSync .STARTED "/a/b" 42 =
      .ok { path := "/a/b", background := true, context := some 42 } ∧
    (∀ b : SyncBuilderS, (b.ForPath "/a/b").background = true) :=
  doSync_background_equiv .STARTED "/a/b" 42 rfl

/-- Modelled from the spec: `fixForNamespace` is not under src/ (only its
call site `curatorFramework.fixForNamespace` is); spec §4.4 — a facade
rewrites every path by prefixing the namespace on writes; an empty
namespace leaves the path untouched. -/
def fixForNamespace (ns path : String) (_isSequential : Bool) : String :=
  if ns = "" then path else "/" ++ ns ++ path

/-- Modelled from the spec: `unfixForNamespace` is not under src/ (only
its call site is); spec §4.4 — a facade strips the namespace on read
results and watch-event paths, so application code never observes the
namespace prefix; an empty namespace leaves the path untouched. -/
def unfixForNamespace (ns path : String) : String :=
  if ns = "" then path
  else if ("/" ++ ns).data.isPrefixOf path.data then
    String.mk (path.data.drop ("/" ++ ns).data.length)
  else path

/-- The namespaced view a `namespaceFacadeCache.Get` call yields: it is
determined by its namespace string (the cache hands back the one facade
it memoizes per namespace, wrapping the same underlying client). -/
structure Facade where
  nameSpace : String
deriving DecidableEq, Repr

/-- Modelled from the spec: the `namespaceFacadeCache` is not under src/
(only its construction and its `Get` call sites are); spec §4.4 — `Get`
is memoized by namespace string, so it is a function of the namespace:
the same namespace always yields the identical facade. -/
def namespaceFacadeCacheGet (ns : String) : Facade :=
  { nameSpace := ns }

/-- Model of `curatorFramework.UsingNamespace`: check STARTED, then hand
back the cached facade for the requested namespace. -/
def UsingNamespace (c : Framework) (newNamespace : String) :
    Except String Facade :=
  match c.state.Check .STARTED mustBeStartedMsg with
  | some msg => .error msg
  | none => .ok (namespaceFacadeCacheGet newNamespace)

/-- Model of `curatorFramework.NonNamespaceView`: literally
`UsingNamespace("")`. -/
def NonNamespaceView (c : Framework) : Except String Facade :=
  UsingNamespace c ""

/-- C7: on a Started framework, NonNamespaceView() is exactly
UsingNamespace(""); the facade it returns carries the empty namespace,
whose path rewriting is the identity in both directions — the behaviour
of a root façade configured without a namespace. -/
theorem nonNamespaceView_is_empty_namespace (c : Framework)
    (h : c.state = .STARTED) :
    NonNamespaceView c = UsingNamespace c "" ∧
    NonNamespaceView c = .ok { nameSpace := "" } ∧
    (∀ p : String, ∀ seq : Bool,
      fixForNamespace "" p seq = p ∧ unfixForNamespace "" p = p) := by
  refine ⟨rfl, ?_, fun p seq => ⟨rfl, rfl⟩⟩
  unfold NonNamespaceView UsingNamespace State.Check
  rw [h]
  simp [namespaceFacadeCacheGet]

theorem nonNamespaceView_is_empty_namespace_witness :
    NonNamespaceView ⟨.STARTED, [], [], "base"⟩ =
      UsingNamespace ⟨.STARTED, [], [], "base"⟩ "" ∧
    NonNamespaceView ⟨.STARTED, [], [], "base"⟩ = .ok { nameSpace := "" } ∧
    (∀ p : String, ∀ seq : Bool,
      fixForNamespace "" p seq = p ∧ unfixForNamespace "" p = p) :=
  nonNamespaceView_is_empty_namespace ⟨.STARTED, [], [], "base"⟩ rfl

/-- Logical connection states (spec §3). -/
inductive ConnectionState where
  | CONNECTED
  | SUSPENDED
  | RECONNECTED
  | LOST
  | READ_ONLY
deriving DecidableEq, Repr

/-- A connection state counts as connected when it is Connected or
Reconnected (spec §4.2). -/
def ConnectionState.isConnected : ConnectionState → Bool
  | .CONNECTED => true
  | .RECONNECTED => true
  | _ => false

/-- Instant (number of elapsed time units) at which a trace of observed
connection states first reaches a connected state, if it ever does. -/
def firstConnectedAt : List ConnectionState → Option Nat
  | [] => none
  | s :: rest =>
    if s.isConnected then some 0 else (firstConnectedAt rest).map (· + 1)

/-- Outcome of a blocking wait over a finite observed trace. -/
inductive BlockResult where
  | connected (t : Nat)
  | timeoutErr
  | stillWaiting
deriving DecidableEq, Repr

/-- Modelled from the spec: `connectionStateManager.BlockUntilConnected`
is not under src/ (only its call site is); spec §4.2 — the call suspends
until ConnectionState reaches Connected or Reconnected, or returns a
timeout error once the deadline elapses first; a zero maxWaitTime means
wait indefinitely.  Time is discrete: `trace` lists the connection state
observed at each instant, and a wait that neither connects nor times out
within the trace is `stillWaiting`. -/
def stateManagerBlockUntilConnected (maxWaitTime : Nat)
    (trace : List ConnectionState) : BlockResult :=
  match firstConnectedAt trace with
  | some t =>
    if maxWaitTime = 0 ∨ t < maxWaitTime then .connected t else .timeoutErr
  | none =>
    if maxWaitTime = 0 then .stillWaiting
    else if maxWaitTime ≤ trace.length then .timeoutErr
    else .stillWaiting

/-- Model of `curatorFramework.BlockUntilConnectedTimeout`: delegates to
the state manager's wait. -/
def BlockUntilConnectedTimeout (maxWaitTime : Nat)
    (trace : List ConnectionState) : BlockResult :=
  stateManagerBlockUntilConnected maxWaitTime trace

/-- Model of `curatorFramework.BlockUntilConnected`: literally
`BlockUntilConnectedTimeout(0)`. -/
def BlockUntilConnected (trace : List ConnectionState) : BlockResult :=
  BlockUntilConnectedTimeout 0 trace

/-- C8: BlockUntilConnected() is exactly BlockUntilConnectedTimeout(0);
with zero timeout it never returns a timeout error and yields Connected
at the first instant the trace reaches Connected or Reconnected (waiting
indefinitely otherwise); with a positive timeout d it returns a timeout
error whenever connectivity is not achieved within d instants although d
instants have been observed. -/
theorem blockUntilConnected_spec (trace : List ConnectionState) :
    BlockUntilConnected trace = BlockUntilConnectedTimeout 0 trace ∧
    BlockUntilConnected trace ≠ .timeoutErr ∧
    (∀ t : Nat, firstConnectedAt trace = some t →
      BlockUntilConnected trace = .connected t) ∧
    (∀ d : Nat, 0 < d →
      (∀ t : Nat, firstConnectedAt trace = some t → d ≤ t) →
      d ≤ trace.length →
      BlockUntilConnectedTimeout d trace = .timeoutErr) := by
  refine ⟨rfl, ?_, ?_, ?_⟩
  · unfold BlockUntilConnected BlockUntilConnectedTimeout
      stateManagerBlockUntilConnected
    rcases h : firstConnectedAt trace with _ | t <;> simp [h]
  · intro t ht
    unfold BlockUntilConnected BlockUntilConnectedTimeout
      stateManagerBlockUntilConnected
    simp [ht]
  · intro d hd hlate hlen
    unfold BlockUntilConnectedTimeout stateManagerBlockUntilConnected
    rcases h : firstConnectedAt trace with _ | t
    · simp [Nat.pos_iff_ne_zero.mp hd, hlen]
    · have := hlate t h
      simp [Nat.pos_iff_ne_zero.mp hd, Nat.not_lt.mpr this]

theorem blockUntilConnected_spec_witness :
    BlockUntilConnected [ConnectionState.SUSPENDED, ConnectionState.RECONNECTED]
      = BlockUntilConnectedTimeout 0
          [ConnectionState.SUSPENDED, ConnectionState.RECONNECTED] ∧
    BlockUntilConnected [ConnectionState.SUSPENDED, ConnectionState.RECONNECTED]
      = .connected 1 ∧
    BlockUntilConnectedTimeout 1
      [ConnectionState.SUSPENDED, ConnectionState.RECONNECTED] = .timeoutErr := by
  refine ⟨(blockUntilConnected_spec _).1, ?_, ?_⟩
  · exact (blockUntilConnected_spec
      [ConnectionState.SUSPENDED, ConnectionState.RECONNECTED]).2.2.1 1 (by decide)
  · refine (blockUntilConnected_spec
      [ConnectionState.SUSPENDED, ConnectionState.RECONNECTED]).2.2.2 1
      (by decide) ?_ (by decide)
    intro t ht
    have : t = 1 := by
      have hc : firstConnectedAt
          [ConnectionState.SUSPENDED, ConnectionState.RECONNECTED] = some 1 := by
        decide
      rw [hc] at ht
      exact (Option.some_injective _ ht).symm
    omega

/-- A raw zookeeper watch event as seen by the façade's single low-level
watcher callback: its error and its (namespaced) path. -/
structure ZkEvent where
  err : Option String
  path : String
deriving DecidableEq, Repr

/-- A curator event as built by the watcher callback. -/
structure CuratorEventS where
  eventType : CuratorEventType
  err : Option String
  path : String
deriving DecidableEq, Repr

/-- Model of `curatorFramework.processEvent`: the source branches on
`event.Type() == WATCHED` and the branch body is empty, so no listener
dispatch happens for any event; the returned list of (listener, event)
deliveries is empty in every case. -/
def processEvent (_c : Framework) (event : CuratorEventS) :
    List (Nat × CuratorEventS) :=
  if event.eventType = .WATCHED then
    []
  else
    []

/-- Model of the watcher installed by `newCuratorFramework`: every raw
event is wrapped into a curator event of kind WATCHED whose path is
passed through `unfixForNamespace`, and handed to `processEvent`.
Returns the constructed event and the deliveries `processEvent` made. -/
def watcherCallback (c : Framework) (event : ZkEvent) :
    CuratorEventS × List (Nat × CuratorEventS) :=
  let evt : CuratorEventS :=
    { eventType := .WATCHED
    , err := event.err
    , path := unfixForNamespace c.nameSpace event.path }
  (evt, processEvent c evt)

/-- C4 failing input: a Started framework with namespace "ns" and one
registered curator listener receives a raw watch event at "/ns/a".  The
callback does build a WATCHED curator event with the namespace stripped
("/a"), but `processEvent`'s WATCHED branch is empty, so the event is
dropped: no registered listener receives it, contradicting the claimed
delivery to application callbacks. -/
theorem watched_event_dropped_not_delivered :
    (⟨.STARTED, [7], [], "ns"⟩ : Framework).listeners = [7] ∧
    (watcherCallback ⟨.STARTED, [7], [], "ns"⟩ ⟨none, "/ns/a"⟩).1.eventType =
      .WATCHED ∧
    (watcherCallback ⟨.STARTED, [7], [], "ns"⟩ ⟨none, "/ns/a"⟩).1.path = "/a" ∧
    (watcherCallback ⟨.STARTED, [7], [], "ns"⟩ ⟨none, "/ns/a"⟩).2 = [] := by
  refine ⟨rfl, rfl, ?_, rfl⟩
  decide

end Curator
